import Mathlib

/-!
Verification development for the ClimaShield-AI core:
the insight engine (src/insight-engine.py) and the forecast engine
(src/ml-engine.py), shallowly embedded over the rationals.

Python float arithmetic is modelled by exact rational arithmetic; the
one-decimal reporting rounding of the code is modelled by half-up
rounding to tenths.
-/

namespace ClimaShield

/-- Rounding to one decimal place, modelling the code rounding of
values to a single decimal for reporting. -/
def round1 (x : ℚ) : ℚ := (round (10 * x) : ℤ) / 10

/-- The data model of one historical climate observation:
one row of the AQI-Rainfall table after cleaning. -/
structure Observation where
  area : String
  year : ℤ
  aqi : ℚ
  rainfall : ℚ
deriving DecidableEq, Repr

/-- The data model of one soil/elevation fact: one row of the
Soil_type-Elevation table after cleaning. -/
structure SoilFact where
  area : String
  soilType : String
  elevation : ℚ
deriving DecidableEq, Repr

/-- The record returned by analyze_historical_trends.  The code returns
a Python dict whose key set differs between the no-data branch and the
normal branch: the no-data branch has no avg_aqi and no avg_rainfall
key, which is modelled by Option fields. -/
structure TrendSummary where
  aqi_trend : String
  rainfall_trend : String
  aqi_score : ℚ
  rainfall_score : ℚ
  avg_aqi : Option ℚ
  avg_rainfall : Option ℚ
  data_years : List ℤ
deriving DecidableEq, Repr

/-- The record returned by analyze_soil_characteristics. -/
structure SoilProfile where
  soil_type : String
  elevation : ℚ
  lake_bed_probability : ℚ
  water_absorption_score : ℚ
  waterlogging_risk : ℚ
deriving DecidableEq, Repr

/-- The four-value risk bundle returned by calculate_risk_scores. -/
structure RiskBundle where
  air_quality : ℚ
  construction_stability : ℚ
  water_management : ℚ
  climate_risk_score : ℚ
deriving DecidableEq, Repr

/-- Arithmetic mean of a list of rationals (np.mean). -/
def listMean (l : List ℚ) : ℚ := l.sum / l.length

/-- Sum of first components of a list of pairs. -/
def sumX (pts : List (ℚ × ℚ)) : ℚ := (pts.map Prod.fst).sum

/-- Sum of second components of a list of pairs. -/
def sumY (pts : List (ℚ × ℚ)) : ℚ := (pts.map Prod.snd).sum

/-- Sum of squares of first components. -/
def sumXX (pts : List (ℚ × ℚ)) : ℚ := (pts.map (fun p => p.1 * p.1)).sum

/-- Sum of products of the components. -/
def sumXY (pts : List (ℚ × ℚ)) : ℚ := (pts.map (fun p => p.1 * p.2)).sum

/-- Ordinary-least-squares slope of y against x for a list of points,
in the normal-equation form.  This embeds the degree-1 least-squares
fits of the code (np.polyfit with degree 1, sklearn LinearRegression).
When all x are equal the denominator is 0 and rational division gives
slope 0, matching the flat-line behaviour of the libraries on a
degenerate design matrix. -/
def olsSlope (pts : List (ℚ × ℚ)) : ℚ :=
  ((pts.length : ℚ) * sumXY pts - sumX pts * sumY pts) /
    ((pts.length : ℚ) * sumXX pts - sumX pts * sumX pts)

/-- Ordinary-least-squares intercept for a list of points. -/
def olsIntercept (pts : List (ℚ × ℚ)) : ℚ :=
  listMean (pts.map Prod.snd) - olsSlope pts * listMean (pts.map Prod.fst)

/-- Pairs each list element with its positional index 0,1,2,...;
this is the x-axis used by the trend classifier (np.polyfit over
range(len(values))). -/
def indexedPts (l : List ℚ) : List (ℚ × ℚ) :=
  l.enum.map (fun p => ((p.1 : ℚ), p.2))

/-- Substring containment, embedding the Python expression
testing whether one string occurs inside another (the in operator). -/
def containsSub (needle hay : String) : Bool :=
  (List.range (hay.toList.length + 1)).any
    (fun i => needle.toList.isPrefixOf (hay.toList.drop i))

/-- The fixed soil-absorption lookup of the engine constructor
(self.soil_absorption_map together with the .get default 5). -/
def soilAbsorption (s : String) : ℚ :=
  if s = "Clayey Soil" then 2
  else if s = "Red Loamy Soil" then 7
  else if s = "Laterite Soil" then 5
  else if s = "Sandy Soil" then 9
  else if s = "Black Cotton Soil" then 1
  else if s = "Alluvial Soil" then 6
  else 5

/-- Embedding of ClimateInsightEngine.analyze_historical_trends.
The observation table is passed explicitly; the code reads it from
self.aqi_rainfall_data. -/
def analyze_historical_trends (data : List Observation) (area : String) :
    TrendSummary :=
  let area_data := data.filter (fun r => r.area == area)
  if area_data.isEmpty then
    { aqi_trend := ("No data available")
      rainfall_trend := ("No data available")
      aqi_score := 5
      rainfall_score := 5
      avg_aqi := none
      avg_rainfall := none
      data_years := [] }
  else
    let aqi_values := area_data.map (fun r => r.aqi)
    let rainfall_values := area_data.map (fun r => r.rainfall)
    let years := area_data.map (fun r => r.year)
    let aqi_trend :=
      if 1 < aqi_values.length then
        let aqi_slope := olsSlope (indexedPts aqi_values)
        if 2 < aqi_slope then ("worsening")
        else if aqi_slope < -2 then ("improving")
        else ("stable")
      else ("stable")
    let rainfall_trend :=
      if 1 < rainfall_values.length then
        let rainfall_slope := olsSlope (indexedPts rainfall_values)
        if 10 < rainfall_slope then ("increasing")
        else if rainfall_slope < -10 then ("decreasing")
        else ("stable")
      else ("stable")
    let avg_aqi := listMean aqi_values
    let avg_rainfall := listMean rainfall_values
    let aqi_score := max 1 (min 10 (10 - (avg_aqi / 50) * 9))
    let rainfall_deviation := |avg_rainfall - 1200| / 1200
    let rainfall_score := max 1 (min 10 (10 - rainfall_deviation * 9))
    { aqi_trend := aqi_trend
      rainfall_trend := rainfall_trend
      aqi_score := round1 aqi_score
      rainfall_score := round1 rainfall_score
      avg_aqi := some (round1 avg_aqi)
      avg_rainfall := some (round1 avg_rainfall)
      data_years := years }

/-- Embedding of ClimateInsightEngine.analyze_soil_characteristics.
The soil table is passed explicitly; the code reads it from
self.soil_elevation_data and takes the first matching row. -/
def analyze_soil_characteristics (soil : List SoilFact) (area : String) :
    SoilProfile :=
  let soil_data := soil.filter (fun r => r.area == area)
  match soil_data with
  | [] =>
    { soil_type := ("Unknown")
      elevation := 0
      lake_bed_probability := 5
      water_absorption_score := 5
      waterlogging_risk := 5 }
  | f :: _ =>
    let soil_type := f.soilType
    let elevation := f.elevation
    let elevation_factor := max 0 ((1000 - elevation) / 1000)
    let soil_factor : ℚ := if containsSub ("Clayey") soil_type then 8/10 else 3/10
    let lake_bed_probability := min 10 (max 1 ((elevation_factor + soil_factor) * 10))
    let absorption_score := soilAbsorption soil_type
    let waterlogging_risk :=
      max 1 (min 10 (11 - absorption_score + elevation_factor * 3))
    { soil_type := soil_type
      elevation := elevation
      lake_bed_probability := round1 lake_bed_probability
      water_absorption_score := absorption_score
      waterlogging_risk := round1 waterlogging_risk }

/-- Embedding of ClimateInsightEngine.calculate_risk_scores. -/
def calculate_risk_scores (h : TrendSummary) (s : SoilProfile) : RiskBundle :=
  let air_quality_score := h.aqi_score
  let construction_stability := max 1 (min 10 (11 - s.waterlogging_risk))
  let water_mgmt_base := (h.rainfall_score + s.water_absorption_score) / 2
  let water_management_score := min 10 (max 1 water_mgmt_base)
  let overall_score :=
    (air_quality_score + construction_stability + water_management_score) / 3
  let climate_risk_score := max 1 (min 10 (11 - overall_score))
  { air_quality := round1 air_quality_score
    construction_stability := round1 construction_stability
    water_management := round1 water_management_score
    climate_risk_score := round1 climate_risk_score }

/-- One row of the forecast output table of ml-engine.py
(columns Year, Area, AQI, Rainfall_mm). -/
structure ForecastRow where
  year : ℤ
  area : String
  aqi : ℚ
  rainfall_mm : ℚ
deriving DecidableEq, Repr

/-- A fitted univariate linear model (sklearn LinearRegression). -/
structure LinModel where
  slope : ℚ
  intercept : ℚ
deriving DecidableEq, Repr

/-- Model evaluation (LinearRegression.predict). -/
def LinModel.predict (m : LinModel) (x : ℚ) : ℚ := m.intercept + m.slope * x

/-- Least-squares fit of a line to a list of points
(LinearRegression.fit).  On a degenerate design (all x equal) the
slope is 0 and the intercept is the mean of y, matching the
minimum-norm behaviour of the library. -/
def fitLine (pts : List (ℚ × ℚ)) : LinModel :=
  { slope := olsSlope pts, intercept := olsIntercept pts }

/-- Helper for uniqueAreas: keeps the first occurrence of each
element, in order, skipping elements already seen. -/
def uniqueAux (seen : List String) : List String → List String
  | [] => []
  | a :: rest =>
    if a ∈ seen then uniqueAux seen rest
    else a :: uniqueAux (a :: seen) rest

/-- Embedding of data['Area'].unique(): the areas of the observation
table in the order they are first encountered. -/
def uniqueAreas (data : List Observation) : List String :=
  uniqueAux [] (data.map (fun r => r.area))

/-- Embedding of train_models_per_area: for each area with more than
one observation, in first-encounter order, the pair of fitted models
(year to AQI, year to rainfall), fitted on the actual year values. -/
def train_models_per_area (data : List Observation) :
    List (String × LinModel × LinModel) :=
  (uniqueAreas data).filterMap (fun area =>
    let area_data := data.filter (fun r => r.area == area)
    if 1 < area_data.length then
      some (area,
        fitLine (area_data.map (fun r => ((r.year : ℚ), r.aqi))),
        fitLine (area_data.map (fun r => ((r.year : ℚ), r.rainfall))))
    else none)

/-- The future years 2025..2030 (np.arange(2025, 2031)). -/
def futureYears : List ℤ := [2025, 2026, 2027, 2028, 2029, 2030]

/-- Embedding of generate_predictions: all historical rows in table
order, then for each fitted area six forecast rows with predictions
rounded to one decimal. -/
def generate_predictions (models : List (String × LinModel × LinModel))
    (data : List Observation) : List ForecastRow :=
  (data.map (fun r => ForecastRow.mk r.year r.area r.aqi r.rainfall))
  ++ models.flatMap (fun m =>
      futureYears.map (fun y =>
        ForecastRow.mk y m.1
          (round1 (m.2.1.predict (y : ℚ)))
          (round1 (m.2.2.predict (y : ℚ)))))

/-- The full forecast pipeline of ml-engine.main on an already-cleaned
observation table: train per-area models, then generate the output
table. -/
def forecastPipeline (data : List Observation) : List ForecastRow :=
  generate_predictions (train_models_per_area data) data

/-- The scoring path of generate_insights for one area: both analyzers
feed the synthesizer. -/
def riskBundleOfArea (data : List Observation) (soil : List SoilFact)
    (area : String) : RiskBundle :=
  calculate_risk_scores (analyze_historical_trends data area)
    (analyze_soil_characteristics soil area)

/-! ### Spec-side definitions

These follow the wording of the specification and are compared with the
code embedding above. -/

/-- The clamp of the spec, always to the interval [1, 10]. -/
def clamp (x : ℚ) : ℚ := max 1 (min 10 x)

/-- Spec wording: AQI slope > 2 gives worsening, slope < -2 improving,
else stable. -/
def specAqiLabel (slope : ℚ) : String :=
  if 2 < slope then ("worsening")
  else if slope < -2 then ("improving")
  else ("stable")

/-- Spec wording: rainfall slope > 10 gives increasing, slope < -10
decreasing, else stable. -/
def specRainLabel (slope : ℚ) : String :=
  if 10 < slope then ("increasing")
  else if slope < -10 then ("decreasing")
  else ("stable")

/-- Spec wording: aqi_score = clamp(10 - (avg_aqi/50) x 9, 1, 10). -/
def specAqiScore (avgAqi : ℚ) : ℚ := clamp (10 - (avgAqi / 50) * 9)

/-- Spec wording: rainfall_score =
clamp(10 - |avg_rainfall - 1200|/1200 x 9, 1, 10). -/
def specRainfallScore (avgRainfall : ℚ) : ℚ :=
  clamp (10 - |avgRainfall - 1200| / 1200 * 9)

/-- Spec wording: elevation_factor = max(0, (1000 - elevation)/1000). -/
def specElevationFactor (elevation : ℚ) : ℚ :=
  max 0 ((1000 - elevation) / 1000)

/-- Spec wording: soil_factor is 0.8 when the soil label contains the
substring Clayey, else 0.3. -/
def specSoilFactor (soilType : String) : ℚ :=
  if containsSub ("Clayey") soilType then 8/10 else 3/10

/-- The fixed six-entry absorption table of the spec, as an explicit
association list. -/
def specAbsorptionTable : List (String × ℚ) :=
  [("Clayey Soil", 2), ("Red Loamy Soil", 7), ("Laterite Soil", 5),
   ("Sandy Soil", 9), ("Black Cotton Soil", 1), ("Alluvial Soil", 6)]

/-- Spec wording: look the soil type up in the fixed table, defaulting
to 5 for any other string. -/
def specLookupAbsorption (soilType : String) : ℚ :=
  match specAbsorptionTable.find? (fun p => p.1 == soilType) with
  | some p => p.2
  | none => 5

/-- Spec wording: lake_bed_probability =
clamp((elevation_factor + soil_factor) x 10, 1, 10). -/
def specLakeBed (elevation : ℚ) (soilType : String) : ℚ :=
  clamp ((specElevationFactor elevation + specSoilFactor soilType) * 10)

/-- Spec wording: waterlogging_risk =
clamp(11 - water_absorption_score + elevation_factor x 3, 1, 10). -/
def specWaterlogging (absorption elevation : ℚ) : ℚ :=
  clamp (11 - absorption + specElevationFactor elevation * 3)

/-- The trend summary the spec prescribes for an area with at least one
observation, with the one-decimal reporting rounding of the code at the
output boundary. -/
def specTrendNonEmpty (ad : List Observation) : TrendSummary :=
  { aqi_trend :=
      if 2 ≤ ad.length then
        specAqiLabel (olsSlope (indexedPts (ad.map (fun r => r.aqi))))
      else ("stable")
    rainfall_trend :=
      if 2 ≤ ad.length then
        specRainLabel (olsSlope (indexedPts (ad.map (fun r => r.rainfall))))
      else ("stable")
    aqi_score := round1 (specAqiScore (listMean (ad.map (fun r => r.aqi))))
    rainfall_score :=
      round1 (specRainfallScore (listMean (ad.map (fun r => r.rainfall))))
    avg_aqi := some (round1 (listMean (ad.map (fun r => r.aqi))))
    avg_rainfall := some (round1 (listMean (ad.map (fun r => r.rainfall))))
    data_years := ad.map (fun r => r.year) }

/-- The soil profile the spec prescribes for a first matching soil
fact, with the one-decimal reporting rounding of the code at the output
boundary. -/
def specSoilFromFact (f : SoilFact) : SoilProfile :=
  { soil_type := f.soilType
    elevation := f.elevation
    lake_bed_probability := round1 (specLakeBed f.elevation f.soilType)
    water_absorption_score := specLookupAbsorption f.soilType
    waterlogging_risk :=
      round1 (specWaterlogging (specLookupAbsorption f.soilType) f.elevation) }

/-- The risk bundle the spec prescribes from a trend summary and a soil
profile, with the one-decimal reporting rounding of the code on the
four outputs. -/
def specRiskBundle (t : TrendSummary) (s : SoilProfile) : RiskBundle :=
  { air_quality := round1 t.aqi_score
    construction_stability := round1 (clamp (11 - s.waterlogging_risk))
    water_management :=
      round1 (clamp ((t.rainfall_score + s.water_absorption_score) / 2))
    climate_risk_score :=
      round1 (clamp (11 -
        (t.aqi_score + clamp (11 - s.waterlogging_risk) +
          clamp ((t.rainfall_score + s.water_absorption_score) / 2)) / 3)) }

/-! ### Basic lemmas -/

/-- The two clamp orientations of the code agree. -/
lemma min_max_clamp (x : ℚ) : min 10 (max 1 x) = clamp x := by
  unfold clamp
  rcases le_total x 1 with h1 | h1 <;> rcases le_total x 10 with h2 | h2 <;>
    simp [max_def, min_def] <;> split_ifs <;> linarith

lemma clamp_bounds (x : ℚ) : 1 ≤ clamp x ∧ clamp x ≤ 10 := by
  unfold clamp
  constructor
  · exact le_max_left 1 (min 10 x)
  · exact max_le (by norm_num) (min_le_left 10 x)

lemma round1_mono {x y : ℚ} (h : x ≤ y) : round1 x ≤ round1 y := by
  unfold round1
  have hr : round (10 * x) ≤ round (10 * y) := by
    rw [round_eq, round_eq]
    exact Int.floor_le_floor (by linarith)
  have : ((round (10 * x) : ℤ) : ℚ) ≤ ((round (10 * y) : ℤ) : ℚ) := by
    exact_mod_cast hr
  linarith

lemma round1_one : round1 1 = 1 := by norm_num [round1, round_eq]

lemma round1_ten : round1 10 = 10 := by norm_num [round1, round_eq]

lemma round1_bounds {x : ℚ} (h1 : 1 ≤ x) (h2 : x ≤ 10) :
    1 ≤ round1 x ∧ round1 x ≤ 10 := by
  constructor
  · calc (1 : ℚ) = round1 1 := round1_one.symm
      _ ≤ round1 x := round1_mono h1
  · calc round1 x ≤ round1 10 := round1_mono h2
      _ = 10 := round1_ten

lemma round1_clamp_bounds (x : ℚ) :
    1 ≤ round1 (clamp x) ∧ round1 (clamp x) ≤ 10 :=
  round1_bounds (clamp_bounds x).1 (clamp_bounds x).2

/-- The if-chain lookup of the code equals the association-table lookup
of the spec. -/
lemma soilAbsorption_eq_spec (s : String) :
    soilAbsorption s = specLookupAbsorption s := by
  unfold soilAbsorption specLookupAbsorption specAbsorptionTable
  split_ifs with h1 h2 h3 h4 h5 h6
  · subst h1; rfl
  · subst h2; rfl
  · subst h3; rfl
  · subst h4; rfl
  · subst h5; rfl
  · subst h6; rfl
  · have e1 : (("Clayey Soil" == s) = false) :=
      beq_eq_false_iff_ne.mpr (fun hh => h1 hh.symm)
    have e2 : (("Red Loamy Soil" == s) = false) :=
      beq_eq_false_iff_ne.mpr (fun hh => h2 hh.symm)
    have e3 : (("Laterite Soil" == s) = false) :=
      beq_eq_false_iff_ne.mpr (fun hh => h3 hh.symm)
    have e4 : (("Sandy Soil" == s) = false) :=
      beq_eq_false_iff_ne.mpr (fun hh => h4 hh.symm)
    have e5 : (("Black Cotton Soil" == s) = false) :=
      beq_eq_false_iff_ne.mpr (fun hh => h5 hh.symm)
    have e6 : (("Alluvial Soil" == s) = false) :=
      beq_eq_false_iff_ne.mpr (fun hh => h6 hh.symm)
    simp [List.find?, e1, e2, e3, e4, e5, e6]

lemma soilAbsorption_bounds (s : String) :
    1 ≤ soilAbsorption s ∧ soilAbsorption s ≤ 10 := by
  unfold soilAbsorption
  split_ifs <;> norm_num

/-! ### Equivalence of the embedded code with the spec-side formulas -/

/-- The synthesizer computes exactly the spec formulas, rounded once on
each of its four outputs. -/
lemma synth_eq_spec (t : TrendSummary) (s : SoilProfile) :
    calculate_risk_scores t s = specRiskBundle t s := by
  simp only [calculate_risk_scores, specRiskBundle, min_max_clamp]
  simp only [clamp]

/-- On an area with at least one observation, the trend analyzer
returns exactly the spec record (with the reporting rounding). -/
lemma trend_eq_spec (data : List Observation) (area : String)
    (f : Observation) (rest : List Observation)
    (h : data.filter (fun r => r.area == area) = f :: rest) :
    analyze_historical_trends data area = specTrendNonEmpty (f :: rest) := by
  have hc : (1 < rest.length + 1) = (2 ≤ rest.length + 1) := propext (by omega)
  simp only [analyze_historical_trends, h, List.isEmpty_cons, Bool.false_eq_true,
    if_false, specTrendNonEmpty, specAqiScore, specRainfallScore, clamp,
    specAqiLabel, specRainLabel, List.length_map, List.length_cons, hc]

/-- On an area with a matching soil fact, the soil analyzer returns
exactly the spec record for the first match (with the reporting
rounding). -/
lemma soil_eq_spec (soil : List SoilFact) (area : String)
    (f : SoilFact) (rest : List SoilFact)
    (h : soil.filter (fun r => r.area == area) = f :: rest) :
    analyze_soil_characteristics soil area = specSoilFromFact f := by
  simp only [analyze_soil_characteristics, h, specSoilFromFact, specLakeBed,
    specWaterlogging, specElevationFactor, specSoilFactor,
    soilAbsorption_eq_spec, min_max_clamp, clamp]

/-! ### Range lemmas -/

lemma trend_score_bounds (data : List Observation) (area : String) :
    (1 ≤ (analyze_historical_trends data area).aqi_score ∧
      (analyze_historical_trends data area).aqi_score ≤ 10) ∧
    (1 ≤ (analyze_historical_trends data area).rainfall_score ∧
      (analyze_historical_trends data area).rainfall_score ≤ 10) := by
  rcases hl : data.filter (fun r => r.area == area) with _ | ⟨f, rest⟩
  · simp only [analyze_historical_trends, hl, List.isEmpty_nil, if_true]
    norm_num
  · simp only [analyze_historical_trends, hl, List.isEmpty_cons,
      Bool.false_eq_true, if_false]
    exact ⟨round1_clamp_bounds _, round1_clamp_bounds _⟩

lemma soil_score_bounds (soil : List SoilFact) (area : String) :
    (1 ≤ (analyze_soil_characteristics soil area).lake_bed_probability ∧
      (analyze_soil_characteristics soil area).lake_bed_probability ≤ 10) ∧
    (1 ≤ (analyze_soil_characteristics soil area).water_absorption_score ∧
      (analyze_soil_characteristics soil area).water_absorption_score ≤ 10) ∧
    (1 ≤ (analyze_soil_characteristics soil area).waterlogging_risk ∧
      (analyze_soil_characteristics soil area).waterlogging_risk ≤ 10) := by
  rcases hl : soil.filter (fun r => r.area == area) with _ | ⟨f, rest⟩
  · simp only [analyze_soil_characteristics, hl]
    norm_num
  · simp only [analyze_soil_characteristics, hl]
    refine ⟨?_, soilAbsorption_bounds f.soilType, round1_clamp_bounds _⟩
    rw [min_max_clamp]
    exact round1_clamp_bounds _

lemma bundle_bounds (t : TrendSummary) (s : SoilProfile)
    (ht : 1 ≤ t.aqi_score ∧ t.aqi_score ≤ 10) :
    (1 ≤ (calculate_risk_scores t s).air_quality ∧
      (calculate_risk_scores t s).air_quality ≤ 10) ∧
    (1 ≤ (calculate_risk_scores t s).construction_stability ∧
      (calculate_risk_scores t s).construction_stability ≤ 10) ∧
    (1 ≤ (calculate_risk_scores t s).water_management ∧
      (calculate_risk_scores t s).water_management ≤ 10) ∧
    (1 ≤ (calculate_risk_scores t s).climate_risk_score ∧
      (calculate_risk_scores t s).climate_risk_score ≤ 10) := by
  simp only [calculate_risk_scores]
  refine ⟨round1_bounds ht.1 ht.2, round1_clamp_bounds _, ?_, round1_clamp_bounds _⟩
  rw [min_max_clamp]
  exact round1_clamp_bounds _

/-! ### Forecast-engine lemmas -/

lemma mem_uniqueAux (a : String) :
    ∀ (l seen : List String), a ∈ uniqueAux seen l ↔ (a ∈ l ∧ a ∉ seen) := by
  intro l
  induction l with
  | nil => intro seen; simp [uniqueAux]
  | cons b rest ih =>
    intro seen
    by_cases hb : b ∈ seen
    · rw [show uniqueAux seen (b :: rest) = uniqueAux seen rest from by
        simp [uniqueAux, hb]]
      rw [ih]
      constructor
      · rintro ⟨h1, h2⟩
        exact ⟨List.mem_cons_of_mem b h1, h2⟩
      · rintro ⟨h1, h2⟩
        rcases List.mem_cons.mp h1 with heq | hmem
        · exact absurd (show a ∈ seen by rw [heq]; exact hb) h2
        · exact ⟨hmem, h2⟩
    · rw [show uniqueAux seen (b :: rest) = b :: uniqueAux (b :: seen) rest from by
        simp [uniqueAux, hb]]
      constructor
      · intro h1
        rcases List.mem_cons.mp h1 with heq | hmem
        · refine ⟨List.mem_cons.mpr (Or.inl heq), ?_⟩
          rw [heq]; exact hb
        · rcases (ih (b :: seen)).mp hmem with ⟨h2, h3⟩
          exact ⟨List.mem_cons_of_mem b h2,
            fun hs => h3 (List.mem_cons_of_mem b hs)⟩
      · rintro ⟨h1, h2⟩
        by_cases hab : a = b
        · exact List.mem_cons.mpr (Or.inl hab)
        · rcases List.mem_cons.mp h1 with heq | hmem
          · exact absurd heq hab
          · exact List.mem_cons_of_mem b ((ih (b :: seen)).mpr
              ⟨hmem, fun hs => (List.mem_cons.mp hs).elim hab h2⟩)

lemma mem_uniqueAreas (data : List Observation) (a : String) :
    a ∈ uniqueAreas data ↔ a ∈ data.map (fun r => r.area) := by
  rw [uniqueAreas, mem_uniqueAux]
  simp

/-- Characterization of the trained per-area models. -/
lemma mem_train_models (data : List Observation) (b : String) (mA mR : LinModel) :
    (b, mA, mR) ∈ train_models_per_area data ↔
      (b ∈ uniqueAreas data ∧
        1 < (data.filter (fun r => r.area == b)).length ∧
        mA = fitLine ((data.filter (fun r => r.area == b)).map
          (fun r => ((r.year : ℚ), r.aqi))) ∧
        mR = fitLine ((data.filter (fun r => r.area == b)).map
          (fun r => ((r.year : ℚ), r.rainfall)))) := by
  rw [train_models_per_area, List.mem_filterMap]
  constructor
  · rintro ⟨x, hx, hfx⟩
    dsimp only at hfx
    by_cases hlen : 1 < (data.filter (fun r => r.area == x)).length
    · rw [if_pos hlen] at hfx
      have hxb : x = b := congrArg Prod.fst (Option.some_inj.mp hfx)
      subst hxb
      have h2 := congrArg Prod.snd (Option.some_inj.mp hfx)
      have hA : mA = fitLine ((data.filter (fun r => r.area == x)).map
          (fun r => ((r.year : ℚ), r.aqi))) := (congrArg Prod.fst h2).symm
      have hR : mR = fitLine ((data.filter (fun r => r.area == x)).map
          (fun r => ((r.year : ℚ), r.rainfall))) := (congrArg Prod.snd h2).symm
      exact ⟨hx, hlen, hA, hR⟩
    · rw [if_neg hlen] at hfx
      exact absurd hfx (by simp)
  · rintro ⟨hmem, hlen, hA, hR⟩
    refine ⟨b, hmem, ?_⟩
    dsimp only
    rw [if_pos hlen, hA, hR]

lemma div_congr_mul (a b c d k : ℚ) (hk : k ≠ 0) (ha : a = k * c)
    (hb : b = k * d) : a / b = c / d := by
  subst ha
  subst hb
  exact mul_div_mul_left c d hk

/-- The least-squares slope through exactly two points with distinct
abscissae is the secant slope. -/
lemma olsSlope_pair (x1 y1 x2 y2 : ℚ) (hx : x1 - x2 ≠ 0) :
    olsSlope [(x1, y1), (x2, y2)] = (y1 - y2) / (x1 - x2) := by
  unfold olsSlope
  apply div_congr_mul _ _ _ _ (x1 - x2) hx
  · simp [sumXY, sumX, sumY]
    ring
  · simp [sumXX, sumX]
    ring

/-- The line fitted to exactly two points with distinct abscissae
passes through both of them. -/
lemma fitLine_pair_predict (x1 y1 x2 y2 : ℚ) (hx : x1 ≠ x2) :
    (fitLine [(x1, y1), (x2, y2)]).predict x1 = y1 ∧
    (fitLine [(x1, y1), (x2, y2)]).predict x2 = y2 := by
  have hs : x1 - x2 ≠ 0 := sub_ne_zero.mpr hx
  unfold fitLine LinModel.predict olsIntercept
  rw [olsSlope_pair x1 y1 x2 y2 hs]
  constructor <;>
  · simp [listMean]
    field_simp
    ring

/-! ### Spec-side forecast model -/

/-- A historical row of the output table, copied unchanged. -/
def histRow (r : Observation) : ForecastRow :=
  ForecastRow.mk r.year r.area r.aqi r.rainfall

/-- The (year, AQI) points of one area. -/
def areaPtsAqi (data : List Observation) (a : String) : List (ℚ × ℚ) :=
  (data.filter (fun r => r.area == a)).map (fun r => ((r.year : ℚ), r.aqi))

/-- The (year, rainfall) points of one area. -/
def areaPtsRain (data : List Observation) (a : String) : List (ℚ × ℚ) :=
  (data.filter (fun r => r.area == a)).map (fun r => ((r.year : ℚ), r.rainfall))

/-- The ordinary-least-squares slope in its textbook covariance form,
as the spec words it: sum of centered products over sum of centered
squares. -/
def specSlope (pts : List (ℚ × ℚ)) : ℚ :=
  (pts.map (fun p => (p.1 - listMean (pts.map Prod.fst)) *
    (p.2 - listMean (pts.map Prod.snd)))).sum /
  (pts.map (fun p => (p.1 - listMean (pts.map Prod.fst)) *
    (p.1 - listMean (pts.map Prod.fst)))).sum

/-- Evaluation of the spec least-squares line at a point. -/
def specPredict (pts : List (ℚ × ℚ)) (t : ℚ) : ℚ :=
  (listMean (pts.map Prod.snd) - specSlope pts * listMean (pts.map Prod.fst)) +
    specSlope pts * t

/-- The forecast output table as the spec words it: all historical
rows first in original order, then one group of six rows per area with
at least 2 observations, in first-encounter order, years 2025..2030
ascending, values on the fitted line rounded to one decimal. -/
def specForecastTable (data : List Observation) : List ForecastRow :=
  data.map histRow ++
  ((uniqueAreas data).filter
      (fun a => 2 ≤ (data.filter (fun r => r.area == a)).length)).flatMap
    (fun a => futureYears.map (fun y =>
      ForecastRow.mk y a (round1 (specPredict (areaPtsAqi data a) (y : ℚ)))
        (round1 (specPredict (areaPtsRain data a) (y : ℚ)))))

/-! ### Sum expansion lemmas for the least-squares forms -/

lemma sum_sub_mul (l : List (ℚ × ℚ)) (c d : ℚ) :
    (l.map (fun p => (p.1 - c) * (p.2 - d))).sum =
      sumXY l - c * sumY l - d * sumX l + (l.length : ℚ) * (c * d) := by
  induction l with
  | nil => simp [sumXY, sumX, sumY]
  | cons p t ih =>
    simp only [List.map_cons, List.sum_cons]
    rw [ih]
    simp only [sumXY, sumX, sumY, List.map_cons, List.sum_cons,
      List.length_cons]
    push_cast
    ring

lemma sum_sub_sq (l : List (ℚ × ℚ)) (c : ℚ) :
    (l.map (fun p => (p.1 - c) * (p.1 - c))).sum =
      sumXX l - 2 * c * sumX l + (l.length : ℚ) * (c * c) := by
  induction l with
  | nil => simp [sumXX, sumX]
  | cons p t ih =>
    simp only [List.map_cons, List.sum_cons]
    rw [ih]
    simp only [sumXX, sumX, List.map_cons, List.sum_cons, List.length_cons]
    push_cast
    ring

/-- On a nonempty point list the covariance form of the slope equals
the normal-equation form used by the embedding of the library fit. -/
lemma specSlope_eq_olsSlope (pts : List (ℚ × ℚ)) (h : pts ≠ []) :
    specSlope pts = olsSlope pts := by
  have hn : ((pts.length : ℚ)) ≠ 0 := by
    have hp : 0 < pts.length := List.length_pos.mpr h
    exact_mod_cast hp.ne'
  unfold specSlope olsSlope listMean
  rw [sum_sub_mul, sum_sub_sq]
  simp only [List.length_map]
  refine (div_congr_mul _ _ _ _ (pts.length : ℚ) hn ?_ ?_).symm
  · show (pts.length : ℚ) * sumXY pts - sumX pts * sumY pts = _
    rw [show (pts.map Prod.fst).sum = sumX pts from rfl,
      show (pts.map Prod.snd).sum = sumY pts from rfl]
    field_simp
    ring
  · show (pts.length : ℚ) * sumXX pts - sumX pts * sumX pts = _
    rw [show (pts.map Prod.fst).sum = sumX pts from rfl]
    field_simp
    ring

/-- On a nonempty point list the fitted line of the embedding agrees
with the spec line everywhere. -/
lemma predict_eq_spec (pts : List (ℚ × ℚ)) (h : pts ≠ []) (t : ℚ) :
    (fitLine pts).predict t = specPredict pts t := by
  unfold fitLine LinModel.predict olsIntercept specPredict
  rw [specSlope_eq_olsSlope pts h]

/-! ### List plumbing lemmas for the forecast table -/

lemma filterMap_ite {α β : Type} (l : List α) (p : α → Prop)
    [DecidablePred p] (G : α → β) :
    l.filterMap (fun a => if p a then some (G a) else none) =
      (l.filter (fun a => decide (p a))).map G := by
  induction l with
  | nil => rfl
  | cons a t ih =>
    by_cases hp : p a <;>
      simp [List.filterMap_cons, List.filter_cons, hp, ih]

lemma flatMap_of_map {α β γ : Type} (l : List α) (T : α → β)
    (f : β → List γ) :
    (l.map T).flatMap f = l.flatMap (fun a => f (T a)) := by
  induction l with
  | nil => rfl
  | cons a t ih => simp [ih]

lemma flatMap_congr_mem {α β : Type} (l : List α) (f g : α → List β)
    (h : ∀ a ∈ l, f a = g a) : l.flatMap f = l.flatMap g := by
  induction l with
  | nil => rfl
  | cons a t ih =>
    simp only [List.flatMap_cons]
    rw [h a (List.mem_cons_self a t),
      ih (fun b hb => h b (List.mem_cons_of_mem a hb))]

lemma map_congr_mem {α β : Type} (l : List α) (f g : α → β)
    (h : ∀ a ∈ l, f a = g a) : l.map f = l.map g := by
  induction l with
  | nil => rfl
  | cons a t ih =>
    simp only [List.map_cons]
    rw [h a (List.mem_cons_self a t),
      ih (fun b hb => h b (List.mem_cons_of_mem a hb))]

/-! ### Two-stage rounding model for the scoring path -/

/-- The composition the spec claims: all analyzer and synthesizer
formulas evaluated in full precision, with the one-decimal rounding
applied only once, on the four reported values. -/
def onceRoundedBundle (data : List Observation) (soil : List SoilFact)
    (area : String) : RiskBundle :=
  let ad := data.filter (fun r => r.area == area)
  let aqiS := if ad.isEmpty then 5
    else specAqiScore (listMean (ad.map (fun r => r.aqi)))
  let rainS := if ad.isEmpty then 5
    else specRainfallScore (listMean (ad.map (fun r => r.rainfall)))
  let sd := soil.filter (fun r => r.area == area)
  let absorption := match sd with
    | [] => 5
    | f :: _ => specLookupAbsorption f.soilType
  let wl := match sd with
    | [] => (5 : ℚ)
    | f :: _ => specWaterlogging (specLookupAbsorption f.soilType) f.elevation
  let constr := clamp (11 - wl)
  let wm := clamp ((rainS + absorption) / 2)
  let risk := clamp (11 - (aqiS + constr + wm) / 3)
  RiskBundle.mk (round1 aqiS) (round1 constr) (round1 wm) (round1 risk)

/-- What the code actually computes: the analyzer outputs are rounded
to one decimal, the synthesizer computes in full precision on those
rounded inputs, and rounds its four outputs again. -/
def twoStageRounded (data : List Observation) (soil : List SoilFact)
    (area : String) : RiskBundle :=
  let ad := data.filter (fun r => r.area == area)
  let aqiS := if ad.isEmpty then 5
    else round1 (specAqiScore (listMean (ad.map (fun r => r.aqi))))
  let rainS := if ad.isEmpty then 5
    else round1 (specRainfallScore (listMean (ad.map (fun r => r.rainfall))))
  let sd := soil.filter (fun r => r.area == area)
  let absorption := match sd with
    | [] => 5
    | f :: _ => specLookupAbsorption f.soilType
  let wl := match sd with
    | [] => (5 : ℚ)
    | f :: _ =>
      round1 (specWaterlogging (specLookupAbsorption f.soilType) f.elevation)
  let constr := clamp (11 - wl)
  let wm := clamp ((rainS + absorption) / 2)
  let risk := clamp (11 - (aqiS + constr + wm) / 3)
  RiskBundle.mk (round1 aqiS) (round1 constr) (round1 wm) (round1 risk)

/-! ### Concrete inputs used by counterexamples and witnesses -/

/-- A trend summary whose aqi_score is not a one-decimal value. -/
def trendIn0 : TrendSummary :=
  TrendSummary.mk ("stable") ("stable") (704/100) 5 none none []

/-- A neutral soil profile input. -/
def soilIn0 : SoilProfile := SoilProfile.mk ("Unknown") 0 5 5 5

/-- An observation table with a single area named Hebbal. -/
def noMatchData : List Observation := [Observation.mk ("Hebbal") 2020 100 1200]

/-- Two observations of one area (the worked example of the spec). -/
def obsTwo : List Observation :=
  [Observation.mk ("A") 2020 100 1200, Observation.mk ("A") 2021 150 1100]

/-- One observation whose mean AQI produces a score with three
decimals. -/
def obsC4 : List Observation := [Observation.mk ("A") 2020 (33/2) 1200]

/-- The Black Cotton Soil worked example of the spec. -/
def soilW5 : List SoilFact := [SoilFact.mk ("B") ("Black Cotton Soil") 200]

/-- A soil fact whose waterlogging risk has two decimals before
rounding. -/
def soilC5 : List SoilFact := [SoilFact.mk ("A") ("Red Loamy Soil") 680]

/-- A single-observation area with year below 2025. -/
def obsW6 : List Observation := [Observation.mk ("A") 2020 100 1200]

/-- A single-observation area whose observation year lies inside the
forecast window 2025-2030. -/
def obsX6 : List Observation := [Observation.mk ("B") 2026 50 1000]

/-- Two areas, the second with a single observation. -/
def obsW10 : List Observation :=
  [Observation.mk ("A") 2020 100 1200, Observation.mk ("B") 2021 50 900]

/-- One observation chosen so that double rounding changes the
composite risk score. -/
def obsK : List Observation := [Observation.mk ("K") 2020 (176/10) 1248]

/-- A soil fact whose waterlogging risk rounds from 4.96 to 5.0. -/
def soilK : List SoilFact := [SoilFact.mk ("K") ("Red Loamy Soil") 680]

/-! ### Claims -/

/-- Claim C1 (amended): for every TrendSummary and SoilProfile input
pair, the risk synthesizer returns the four values rounded to one
decimal place: air_quality = round1(aqi_score), construction_stability
= round1(clamp(11 - waterlogging_risk, 1, 10)), water_management =
round1(clamp((rainfall_score + water_absorption_score) / 2, 1, 10)),
and climate_risk_score = round1(clamp(11 - mean of the three, 1, 10)),
with only the composite inverted. -/
theorem C1_synthesizer_formulas (t : TrendSummary) (s : SoilProfile) :
    calculate_risk_scores t s = specRiskBundle t s :=
  synth_eq_spec t s

/-- Claim C1 counterexample: the synthesizer does not return
air_quality equal to the input aqi_score when that input is not a
one-decimal value, because the output is rounded. -/
theorem C1_counterexample :
    (calculate_risk_scores trendIn0 soilIn0).air_quality ≠ trendIn0.aqi_score := by
  show round1 ((704 : ℚ)/100) ≠ (704 : ℚ)/100
  norm_num [round1, round_eq]

/-- Claim C2: for all inputs, every score returned by the analyzers
and by the synthesizer on the analyzer outputs (aqi_score,
rainfall_score, lake_bed_probability, water_absorption_score,
waterlogging_risk, air_quality, construction_stability,
water_management, climate_risk_score) lies in [1, 10]. -/
theorem C2_all_scores_in_range (data : List Observation)
    (soil : List SoilFact) (area : String) :
    (1 ≤ (analyze_historical_trends data area).aqi_score ∧
      (analyze_historical_trends data area).aqi_score ≤ 10) ∧
    (1 ≤ (analyze_historical_trends data area).rainfall_score ∧
      (analyze_historical_trends data area).rainfall_score ≤ 10) ∧
    (1 ≤ (analyze_soil_characteristics soil area).lake_bed_probability ∧
      (analyze_soil_characteristics soil area).lake_bed_probability ≤ 10) ∧
    (1 ≤ (analyze_soil_characteristics soil area).water_absorption_score ∧
      (analyze_soil_characteristics soil area).water_absorption_score ≤ 10) ∧
    (1 ≤ (analyze_soil_characteristics soil area).waterlogging_risk ∧
      (analyze_soil_characteristics soil area).waterlogging_risk ≤ 10) ∧
    (1 ≤ (riskBundleOfArea data soil area).air_quality ∧
      (riskBundleOfArea data soil area).air_quality ≤ 10) ∧
    (1 ≤ (riskBundleOfArea data soil area).construction_stability ∧
      (riskBundleOfArea data soil area).construction_stability ≤ 10) ∧
    (1 ≤ (riskBundleOfArea data soil area).water_management ∧
      (riskBundleOfArea data soil area).water_management ≤ 10) ∧
    (1 ≤ (riskBundleOfArea data soil area).climate_risk_score ∧
      (riskBundleOfArea data soil area).climate_risk_score ≤ 10) := by
  obtain ⟨hA, hR⟩ := trend_score_bounds data area
  obtain ⟨hL, hW, hG⟩ := soil_score_bounds soil area
  obtain ⟨hb1, hb2, hb3, hb4⟩ :=
    bundle_bounds (analyze_historical_trends data area)
      (analyze_soil_characteristics soil area) hA
  simp only [riskBundleOfArea]
  exact ⟨hA, hR, hL, hW, hG, hb1, hb2, hb3, hb4⟩

/-- Claim C3: evaluation at a missing area.  The trend record returned
for an area with no observations carries no avg_aqi and no
avg_rainfall entry (modelled as none): it is not a fully-populated
TrendSummary, contradicting the claim; the remaining defaults match
the claim, as does the soil default record. -/
theorem C3_missing_area_defaults :
    analyze_historical_trends noMatchData ("Nowhere") =
      TrendSummary.mk ("No data available") ("No data available")
        5 5 none none [] ∧
    (analyze_historical_trends noMatchData ("Nowhere")).avg_aqi = none ∧
    (analyze_historical_trends noMatchData ("Nowhere")).avg_rainfall = none ∧
    analyze_soil_characteristics [] ("Nowhere") =
      SoilProfile.mk ("Unknown") 0 5 5 5 :=
  ⟨rfl, rfl, rfl, rfl⟩

/-- Claim C4 (amended): for every area with at least one observation,
the trend analyzer classifies trend direction from the least-squares
slope against positional index (stable with exactly one observation)
and returns the spec score formulas rounded to one decimal place. -/
theorem C4_trend_formulas (data : List Observation) (area : String)
    (f : Observation) (rest : List Observation)
    (h : data.filter (fun r => r.area == area) = f :: rest) :
    analyze_historical_trends data area = specTrendNonEmpty (f :: rest) :=
  trend_eq_spec data area f rest h

/-- Claim C4 witness at the two-observation worked example. -/
theorem C4_witness :
    analyze_historical_trends obsTwo ("A") =
      specTrendNonEmpty [Observation.mk ("A") 2020 100 1200,
        Observation.mk ("A") 2021 150 1100] :=
  C4_trend_formulas obsTwo ("A") (Observation.mk ("A") 2020 100 1200)
    [Observation.mk ("A") 2021 150 1100] rfl

/-- Claim C4 counterexample: the returned aqi_score is the rounded
value, not the raw clamp formula, when the formula value has more than
one decimal. -/
theorem C4_counterexample :
    (analyze_historical_trends obsC4 ("A")).aqi_score ≠
      specAqiScore (listMean (obsC4.map (fun r => r.aqi))) := by
  rw [trend_eq_spec obsC4 ("A") (Observation.mk ("A") 2020 (33/2) 1200) [] rfl]
  norm_num [specTrendNonEmpty, specAqiScore, clamp, listMean, obsC4,
    round1, round_eq]

/-- Claim C5 (amended): for every area with a matching soil fact, the
soil analyzer returns the spec formulas for the first match, with
lake_bed_probability and waterlogging_risk rounded to one decimal
place and the absorption score taken unrounded from the fixed
six-entry table (default 5). -/
theorem C5_soil_formulas (soil : List SoilFact) (area : String)
    (f : SoilFact) (rest : List SoilFact)
    (h : soil.filter (fun r => r.area == area) = f :: rest) :
    analyze_soil_characteristics soil area = specSoilFromFact f :=
  soil_eq_spec soil area f rest h

/-- Claim C5 witness at the Black Cotton Soil worked example. -/
theorem C5_witness :
    analyze_soil_characteristics soilW5 ("B") =
      specSoilFromFact (SoilFact.mk ("B") ("Black Cotton Soil") 200) :=
  C5_soil_formulas soilW5 ("B") (SoilFact.mk ("B") ("Black Cotton Soil") 200)
    [] rfl

/-- Claim C5 counterexample: the returned waterlogging_risk is the
rounded value, not the raw clamp formula, for Red Loamy Soil at 680 m
(raw value 4.96, returned value 5.0). -/
theorem C5_counterexample :
    (analyze_soil_characteristics soilC5 ("A")).waterlogging_risk ≠
      specWaterlogging (specLookupAbsorption ("Red Loamy Soil")) 680 := by
  rw [soil_eq_spec soilC5 ("A") (SoilFact.mk ("A") ("Red Loamy Soil") 680) [] rfl]
  have hA : specLookupAbsorption ("Red Loamy Soil") = 7 := rfl
  norm_num [specSoilFromFact, specWaterlogging, specElevationFactor, hA,
    clamp, round1, round_eq]

/-- Claim C6 (amended): assuming all observation years lie before
2025, an area with fewer than 2 observations contributes no row with a
year in [2025, 2030] to the forecast output, and this is not an
error: every area with at least 2 observations still receives fitted
models. -/
theorem C6_underqualified_area_no_forecast (data : List Observation)
    (a : String) (hyears : ∀ r ∈ data, r.year < 2025)
    (hcount : (data.filter (fun r => r.area == a)).length < 2) :
    (∀ row ∈ forecastPipeline data, row.area = a →
      ¬(2025 ≤ row.year ∧ row.year ≤ 2030)) ∧
    (∀ b : String, 1 < (data.filter (fun r => r.area == b)).length →
      ∃ mA mR : LinModel, (b, mA, mR) ∈ train_models_per_area data) := by
  constructor
  · intro row hrow harea hrange
    unfold forecastPipeline generate_predictions at hrow
    rcases List.mem_append.mp hrow with hhist | hfc
    · rcases List.mem_map.mp hhist with ⟨r, hr, hmk⟩
      have hys := hyears r hr
      rw [← hmk] at hrange
      simp only at hrange
      omega
    · rcases List.mem_flatMap.mp hfc with ⟨m, hm, hrowm⟩
      rcases List.mem_map.mp hrowm with ⟨y, hy, hmk⟩
      rcases m with ⟨b, mA, mR⟩
      have hchar := (mem_train_models data b mA mR).mp hm
      have hab : a = b := by rw [← harea, ← hmk]
      rw [hab] at hcount
      omega
  · intro b hb
    have hmem : b ∈ data.map (fun r => r.area) := by
      have hne : data.filter (fun r => r.area == b) ≠ [] := by
        intro hnil
        rw [hnil] at hb
        simp at hb
      rcases List.exists_mem_of_ne_nil _ hne with ⟨r, hr⟩
      rcases List.mem_filter.mp hr with ⟨hrd, hrb⟩
      have hra : r.area = b := by simpa using hrb
      exact hra ▸ List.mem_map_of_mem _ hrd
    exact ⟨_, _, (mem_train_models data b _ _).mpr
      ⟨(mem_uniqueAreas data b).mpr hmem, hb, rfl, rfl⟩⟩

/-- Claim C6 witness at a single pre-2025 observation. -/
theorem C6_witness :
    (∀ row ∈ forecastPipeline obsW6, row.area = ("A") →
      ¬(2025 ≤ row.year ∧ row.year ≤ 2030)) ∧
    (∀ b : String, 1 < (obsW6.filter (fun r => r.area == b)).length →
      ∃ mA mR : LinModel, (b, mA, mR) ∈ train_models_per_area obsW6) :=
  C6_underqualified_area_no_forecast obsW6 ("A") (by decide) (by decide)

/-- Claim C6 counterexample: with a single observation whose year is
2026, the area has fewer than 2 observations and its historical row
with a year inside [2025, 2030] still appears in the forecast
output. -/
theorem C6_counterexample :
    (obsX6.filter (fun r => r.area == ("B"))).length < 2 ∧
    ForecastRow.mk 2026 ("B") 50 1000 ∈ forecastPipeline obsX6 ∧
    (2025 : ℤ) ≤ 2026 ∧ (2026 : ℤ) ≤ 2030 := by
  refine ⟨by decide, ?_, by decide, by decide⟩
  show ForecastRow.mk 2026 ("B") 50 1000 ∈ [ForecastRow.mk 2026 ("B") 50 1000]
  exact List.mem_singleton_self _

/-- Claim C7: the forecast output contains all historical rows first
in original order, then forecast rows grouped by area in
first-encounter order, years 2025..2030 ascending within an area, one
row per qualifying area (at least 2 observations) per year, with AQI
and rainfall on the ordinary-least-squares line over the area's actual
year values, rounded to one decimal place. -/
theorem C7_forecast_table_structure (data : List Observation) :
    forecastPipeline data = specForecastTable data := by
  unfold forecastPipeline generate_predictions train_models_per_area
    specForecastTable histRow areaPtsAqi areaPtsRain
  dsimp only
  rw [filterMap_ite (uniqueAreas data)
      (fun area => 1 < (data.filter (fun r => r.area == area)).length)
      (fun area => (area,
        fitLine ((data.filter (fun r => r.area == area)).map
          (fun r => ((r.year : ℚ), r.aqi))),
        fitLine ((data.filter (fun r => r.area == area)).map
          (fun r => ((r.year : ℚ), r.rainfall)))))]
  rw [flatMap_of_map]
  rw [show (uniqueAreas data).filter
        (fun a => decide (1 < (data.filter (fun r => r.area == a)).length)) =
      (uniqueAreas data).filter
        (fun a => decide (2 ≤ (data.filter (fun r => r.area == a)).length)) from
    List.filter_congr (fun a _ => decide_eq_decide.mpr (by omega))]
  congr 1
  apply flatMap_congr_mem
  intro a ha
  have hlen : 2 ≤ (data.filter (fun r => r.area == a)).length :=
    of_decide_eq_true (List.mem_filter.mp ha).2
  have hneA : (data.filter (fun r => r.area == a)).map
      (fun r => ((r.year : ℚ), r.aqi)) ≠ [] := by
    intro hc
    have hc2 := congrArg List.length hc
    simp only [List.length_map, List.length_nil] at hc2
    omega
  have hneR : (data.filter (fun r => r.area == a)).map
      (fun r => ((r.year : ℚ), r.rainfall)) ≠ [] := by
    intro hc
    have hc2 := congrArg List.length hc
    simp only [List.length_map, List.length_nil] at hc2
    omega
  apply map_congr_mem
  intro y hy
  dsimp only
  rw [predict_eq_spec _ hneA, predict_eq_spec _ hneR]

/-- Claim C8 (amended): the four reported risk values are produced
with rounding at two stages, not one: the analyzer outputs
(aqi_score, rainfall_score, waterlogging_risk) are rounded to one
decimal, the synthesizer computes in full precision on those rounded
inputs, and rounds its four outputs again. -/
theorem C8_two_stage_rounding (data : List Observation)
    (soil : List SoilFact) (area : String) :
    riskBundleOfArea data soil area = twoStageRounded data soil area := by
  unfold riskBundleOfArea
  rw [synth_eq_spec]
  rcases hl : data.filter (fun r => r.area == area) with _ | ⟨f, rest⟩ <;>
  rcases hs : soil.filter (fun r => r.area == area) with _ | ⟨g, srest⟩ <;>
  simp only [twoStageRounded, analyze_historical_trends,
    analyze_soil_characteristics, hl, hs, List.isEmpty_nil, List.isEmpty_cons,
    if_true, if_false, Bool.false_eq_true, specRiskBundle, specAqiScore,
    specRainfallScore, specWaterlogging, specElevationFactor, specSoilFactor,
    soilAbsorption_eq_spec, min_max_clamp, clamp, List.length_map,
    List.length_cons]

/-- Claim C8 counterexample: for one observation (AQI 17.6, rainfall
1248) and soil Red Loamy at 680 m, the program reports
climate_risk_score 4.0 while the single-final-rounding composition of
the claim yields 3.9. -/
theorem C8_counterexample :
    (riskBundleOfArea obsK soilK ("K")).climate_risk_score = 4 ∧
    (onceRoundedBundle obsK soilK ("K")).climate_risk_score = 39/10 ∧
    ((4 : ℚ) ≠ 39/10) := by
  refine ⟨?_, ?_, by norm_num⟩
  · have ht := trend_eq_spec obsK ("K")
      (Observation.mk ("K") 2020 (176/10) 1248) [] rfl
    have hso := soil_eq_spec soilK ("K")
      (SoilFact.mk ("K") ("Red Loamy Soil") 680) [] rfl
    unfold riskBundleOfArea
    rw [ht, hso, synth_eq_spec]
    have hA : specLookupAbsorption ("Red Loamy Soil") = 7 := rfl
    norm_num [specRiskBundle, specTrendNonEmpty, specSoilFromFact,
      specAqiScore, specRainfallScore, specWaterlogging, specLakeBed,
      specElevationFactor, hA, listMean, clamp, round1, round_eq]
  · have hfe : obsK.filter (fun r => r.area == ("K")) =
      [Observation.mk ("K") 2020 (176/10) 1248] := rfl
    have hfs : soilK.filter (fun r => r.area == ("K")) =
      [SoilFact.mk ("K") ("Red Loamy Soil") 680] := rfl
    have hA : specLookupAbsorption ("Red Loamy Soil") = 7 := rfl
    norm_num [onceRoundedBundle, hfe, hfs, hA, specAqiScore,
      specRainfallScore, specWaterlogging, specElevationFactor, listMean,
      clamp, round1, round_eq]

/-- Claim C9: for every area with exactly 2 observations having
distinct years, the fitted forecast lines (year to AQI and year to
rainfall) reproduce both original (year, value) pairs exactly. -/
theorem C9_two_point_exact (data : List Observation) (a : String)
    (r1 r2 : Observation)
    (h : data.filter (fun r => r.area == a) = [r1, r2])
    (hy : r1.year ≠ r2.year) :
    ∃ mA mR : LinModel, (a, mA, mR) ∈ train_models_per_area data ∧
      mA.predict (r1.year : ℚ) = r1.aqi ∧ mA.predict (r2.year : ℚ) = r2.aqi ∧
      mR.predict (r1.year : ℚ) = r1.rainfall ∧
      mR.predict (r2.year : ℚ) = r2.rainfall := by
  have hcast : (r1.year : ℚ) ≠ (r2.year : ℚ) := by exact_mod_cast hy
  have hmem : a ∈ data.map (fun r => r.area) := by
    have hr1 : r1 ∈ data.filter (fun r => r.area == a) := by rw [h]; simp
    rcases List.mem_filter.mp hr1 with ⟨hrd, hrb⟩
    have hra : r1.area = a := by simpa using hrb
    exact hra ▸ List.mem_map_of_mem _ hrd
  refine ⟨fitLine [((r1.year : ℚ), r1.aqi), ((r2.year : ℚ), r2.aqi)],
    fitLine [((r1.year : ℚ), r1.rainfall), ((r2.year : ℚ), r2.rainfall)],
    ?_, (fitLine_pair_predict _ _ _ _ hcast).1,
    (fitLine_pair_predict _ _ _ _ hcast).2,
    (fitLine_pair_predict _ _ _ _ hcast).1,
    (fitLine_pair_predict _ _ _ _ hcast).2⟩
  refine (mem_train_models data a _ _).mpr
    ⟨(mem_uniqueAreas data a).mpr hmem, ?_, ?_, ?_⟩
  · rw [h]; norm_num
  · rw [h]; rfl
  · rw [h]; rfl

/-- Claim C9 witness at a concrete two-observation area. -/
theorem C9_witness :
    ∃ mA mR : LinModel, (("A"), mA, mR) ∈ train_models_per_area obsTwo ∧
      mA.predict ((2020 : ℤ) : ℚ) = 100 ∧ mA.predict ((2021 : ℤ) : ℚ) = 150 ∧
      mR.predict ((2020 : ℤ) : ℚ) = 1200 ∧
      mR.predict ((2021 : ℤ) : ℚ) = 1100 :=
  C9_two_point_exact obsTwo ("A") (Observation.mk ("A") 2020 100 1200)
    (Observation.mk ("A") 2021 150 1100) rfl (by decide)

/-- Claim C10: every historical row of every area, including areas
with fewer than 2 observations, appears unchanged in the forecast
output. -/
theorem C10_historical_rows_preserved (data : List Observation)
    (r : Observation) (h : r ∈ data) :
    ForecastRow.mk r.year r.area r.aqi r.rainfall ∈ forecastPipeline data := by
  unfold forecastPipeline generate_predictions
  exact List.mem_append_left _ (List.mem_map_of_mem _ h)

/-- Claim C10 witness: the single observation of an under-qualified
area appears in the output. -/
theorem C10_witness :
    ForecastRow.mk 2021 ("B") 50 900 ∈ forecastPipeline obsW10 :=
  C10_historical_rows_preserved obsW10 (Observation.mk ("B") 2021 50 900)
    (by decide)

end ClimaShield
